import Mathlib

/-!
Verification of the UCPoolCo order pricing and quoting engine
(`src/UCPoolCo/store/models.py` and `src/UCPoolCo/store/utils.py`).

Money amounts (Python `Decimal`) are modelled as `ℚ`: the source only
adds and multiplies decimals, which is exact, so rationals are a faithful
carrier.  Geographic coordinates are modelled as `ℚ` inside the pricing
engine (where the haversine kernel is passed as a parameter, since the
engine never inspects the value it produces) and as `ℝ` for the distance
resolver itself, where the haversine formula is embedded literally.
Nullable database columns become `Option`; Django querysets become lists;
the `GlobalSettings` singleton is passed explicitly.  A Python `TypeError`
(reachable in `haversine_miles` when a stored longitude is `NULL`) is
modelled with `Except`.
-/

namespace UCPoolCo

/-- Python runtime failure that the translated code can raise:
`haversine_miles` applied to a missing (`None`) longitude. -/
inductive PyError where
  | typeError
deriving DecidableEq

/-- `ServiceArea` model: per-region permit fee schedule
(`models.py`, class `ServiceArea`).  Fields not read by the pricing or
queueing code (name, flags, notes) are omitted; `id` is the database
primary key used by foreign-key comparisons. -/
structure ServiceArea where
  id : ℕ
  permit_pool_fee_base : ℚ
  permit_accessory_fee_base : ℚ
  permit_pool_labor_hours : ℚ
  permit_accessory_labor_hours : ℚ
deriving DecidableEq

/-- `GlobalSettings` model (`models.py`).  `permit_labor_hourly_rate` is
`Option ℚ` so that the `or Decimal("0.00")` fallback in
`ServiceArea._get_hourly_rate` is observable; `none` models a missing or
`NULL` value. -/
structure GlobalSettings where
  permit_labor_hourly_rate : Option ℚ
  base_zip_code : String
deriving DecidableEq

/-- `ServiceArea._get_hourly_rate`: reads the global hourly rate and
substitutes `Decimal("0.00")` when it is missing (`rate or Decimal("0.00")`). -/
def get_hourly_rate (gs : GlobalSettings) : ℚ :=
  gs.permit_labor_hourly_rate.getD 0

/-- `ServiceArea.get_pool_permit_charge`:
base permit fee + labor hours * hourly rate. -/
def ServiceArea.get_pool_permit_charge (sa : ServiceArea) (gs : GlobalSettings) : ℚ :=
  sa.permit_pool_fee_base + sa.permit_pool_labor_hours * get_hourly_rate gs

/-- `ServiceArea.get_accessory_permit_charge`:
base permit fee + labor hours * hourly rate. -/
def ServiceArea.get_accessory_permit_charge (sa : ServiceArea) (gs : GlobalSettings) : ℚ :=
  sa.permit_accessory_fee_base + sa.permit_accessory_labor_hours * get_hourly_rate gs

/-- `ZipLocation` model: ZIP code, optional coordinates, optional
service area.  Parametric in the coordinate carrier `α` (`ℚ` for the
engine, `ℝ` for the geometric resolver). -/
structure ZipLocation (α : Type) where
  zip_code : String
  latitude : Option α
  longitude : Option α
  service_area : Option ServiceArea
deriving DecidableEq

/-- `ShippingGroup` model: flat + per-mile shipping rule with the
`free_with_install` flag. -/
structure ShippingGroup where
  base_flat_rate : ℚ
  per_mile_rate : ℚ
  free_with_install : Bool
deriving DecidableEq

/-- `ShippingGroup.estimate_cost`: free when `free_with_install` and
install purchased, otherwise flat rate plus the per-mile term (the
per-mile term is added only when `per_mile_rate` is truthy). -/
def ShippingGroup.estimate_cost (sg : ShippingGroup) (distance_miles : ℚ)
    (with_install : Bool) : ℚ :=
  if sg.free_with_install && with_install then 0
  else
    let cost := sg.base_flat_rate
    if sg.per_mile_rate ≠ 0 then cost + distance_miles * sg.per_mile_rate else cost

/-- `StoreItem` model (accessory / equipment): catalog price, shipping
group and install profile. -/
structure StoreItem where
  price : ℚ
  shipping_group : Option ShippingGroup
  is_installable : Bool
  install_base_rate : ℚ
  install_included_miles : ℕ
  install_per_mile_rate : ℚ
deriving DecidableEq

/-- `StoreItem.estimate_shipping_cost`: delegates to the item's shipping
group, `0` when the item has none. -/
def StoreItem.estimate_shipping_cost (it : StoreItem) (distance_miles : ℚ)
    (with_install : Bool) : ℚ :=
  match it.shipping_group with
  | some sg => sg.estimate_cost distance_miles with_install
  | none => 0

/-- `StoreItem.estimate_install_cost`: `0` when not installable,
otherwise base rate plus clamped excess mileage times the per-mile rate. -/
def StoreItem.estimate_install_cost (it : StoreItem) (distance_miles : ℚ) : ℚ :=
  if it.is_installable = false then 0
  else
    let base := it.install_base_rate
    let included : ℚ := (it.install_included_miles : ℚ)
    let extra_miles := distance_miles - included
    let extra_miles := if extra_miles < 0 then 0 else extra_miles
    base + extra_miles * it.install_per_mile_rate

/-- `PoolVariant` model (pool package): catalog price, shipping group and
day-based install profile. -/
structure PoolVariant where
  variant_price : ℚ
  shipping_group : Option ShippingGroup
  install_days : ℚ
  install_daily_rate : ℚ
  install_included_miles : ℕ
  install_per_mile_rate : ℚ
deriving DecidableEq

/-- `PoolVariant.estimate_shipping_cost`: delegates to the variant's
shipping group, `0` when it has none. -/
def PoolVariant.estimate_shipping_cost (pv : PoolVariant) (distance_miles : ℚ)
    (with_install : Bool) : ℚ :=
  match pv.shipping_group with
  | some sg => sg.estimate_cost distance_miles with_install
  | none => 0

/-- `PoolVariant.estimate_install_cost`: day-based labor plus clamped
excess mileage times the per-mile rate. -/
def PoolVariant.estimate_install_cost (pv : PoolVariant) (distance_miles : ℚ) : ℚ :=
  let labor := pv.install_daily_rate * pv.install_days
  let included : ℚ := (pv.install_included_miles : ℚ)
  let extra_miles := distance_miles - included
  let extra_miles := if extra_miles < 0 then 0 else extra_miles
  labor + extra_miles * pv.install_per_mile_rate

/-- `OrderItem` model: a line referencing at most one `PoolVariant` and
at most one `StoreItem`, with its quantity, flags and computed amounts. -/
structure OrderItem where
  pool_variant : Option PoolVariant
  store_item : Option StoreItem
  quantity : ℕ
  unit_price : ℚ
  line_subtotal : ℚ
  install_selected : Bool
  line_install_amount : ℚ
  line_shipping_amount : ℚ
deriving DecidableEq

/-- `OrderItem.recalc_line_totals`: `line_subtotal = unit_price * quantity`. -/
def OrderItem.recalc_line_totals (it : OrderItem) : OrderItem :=
  { it with line_subtotal := it.unit_price * (it.quantity : ℚ) }

/-- `Order` model: the fields read or written by `calculate_distance`,
`apply_pricing`, `recalc_totals` and `assign_install_queue_position`. -/
structure Order where
  zip_code : String
  zip_location : Option (ZipLocation ℚ)
  install_service_area : Option ServiceArea
  install_queue_position : Option ℕ
  items : List OrderItem
  subtotal : ℚ
  shipping_total : ℚ
  install_total : ℚ
  permit_total : ℚ
  tax_total : ℚ
  grand_total : ℚ
deriving DecidableEq

/-- `ZipLocation.objects.filter(zip_code=z).first()` over the ZIP table. -/
def find_zip {α : Type} (db : List (ZipLocation α)) (z : String) :
    Option (ZipLocation α) :=
  db.find? (fun zl => zl.zip_code == z)

/-- Customer-location resolution inside `Order.calculate_distance`:
prefer a truthy `zip_override`, then the `zip_location` foreign key,
then a lookup of the stored `zip_code`. -/
def resolve_customer_loc {α : Type} (db : List (ZipLocation α))
    (zip_location : Option (ZipLocation α)) (zip_code : String)
    (zip_override : Option String) : Option (ZipLocation α) :=
  let stored : Option (ZipLocation α) :=
    match zip_location with
    | some l => some l
    | none => if zip_code = "" then none else find_zip db zip_code
  match zip_override with
  | some z => if z = "" then stored else find_zip db z
  | none => stored

/-- Core of `Order.calculate_distance` plus the call into
`haversine_miles`: `none` when either ZIP record is missing or either
stored latitude is `NULL`; a `TypeError` when the latitudes are present
but a longitude is `NULL` (the source never checks longitudes, and
`radians(None - x)` raises); otherwise the haversine distance. -/
def calculate_distance_core {α : Type} (hav : α → α → α → α → α)
    (db : List (ZipLocation α)) (gs : GlobalSettings)
    (zip_location : Option (ZipLocation α)) (zip_code : String)
    (zip_override : Option String) : Except PyError (Option α) :=
  let base_loc := find_zip db gs.base_zip_code
  let customer_loc := resolve_customer_loc db zip_location zip_code zip_override
  match base_loc, customer_loc with
  | some b, some c =>
    match b.latitude, c.latitude with
    | some blat, some clat =>
      match b.longitude, c.longitude with
      | some blon, some clon => Except.ok (some (hav blat blon clat clon))
      | _, _ => Except.error PyError.typeError
    | _, _ => Except.ok none
  | _, _ => Except.ok none

/-- `Order.calculate_distance` on the engine's coordinate carrier. -/
def Order.calculate_distance (hav : ℚ → ℚ → ℚ → ℚ → ℚ)
    (db : List (ZipLocation ℚ)) (gs : GlobalSettings) (o : Order)
    (zip_override : Option String) : Except PyError (Option ℚ) :=
  calculate_distance_core hav db gs o.zip_location o.zip_code zip_override

/-- Service-area resolution inside `apply_pricing`: use the linked
`zip_location`'s service area when present; otherwise look up the stored
`zip_code` and, when a record is found, persist it as the new
`zip_location` (first component) alongside its service area (second). -/
def resolve_service_area (db : List (ZipLocation ℚ))
    (zip_location : Option (ZipLocation ℚ)) (zip_code : String) :
    Option (ZipLocation ℚ) × Option ServiceArea :=
  if (zip_location.bind (fun l => l.service_area)).isSome then
    (zip_location, zip_location.bind (fun l => l.service_area))
  else if zip_code ≠ "" then
    match find_zip db zip_code with
    | some z => (some z, z.service_area)
    | none => (zip_location, none)
  else (zip_location, none)

/-- `has_pool_install`: any line referencing a `PoolVariant` with install
selected. -/
def has_pool_install (items : List OrderItem) : Bool :=
  items.any (fun it => it.pool_variant.isSome && it.install_selected)

/-- `has_accessory_install`: any line referencing a `StoreItem` with
install selected. -/
def has_accessory_install (items : List OrderItem) : Bool :=
  items.any (fun it => it.store_item.isSome && it.install_selected)

/-- The shipping group consulted for the cross-line
`free_with_install` decision: the pool variant's group when set,
otherwise the store item's. -/
def line_shipping_group (it : OrderItem) : Option ShippingGroup :=
  if (it.pool_variant.bind (fun pv => pv.shipping_group)).isSome then
    it.pool_variant.bind (fun pv => pv.shipping_group)
  else if (it.store_item.bind (fun si => si.shipping_group)).isSome then
    it.store_item.bind (fun si => si.shipping_group)
  else none

/-- The per-line body of `apply_pricing`: snapshot `unit_price`,
recompute `line_subtotal`, compute the install amount (when selected),
decide the shipping `with_install` flag (own install, or any pool
install in the order combined with this line's `free_with_install`
shipping group) and compute the shipping amount. -/
def price_line (distance_miles : ℚ) (hpi : Bool) (it : OrderItem) : OrderItem :=
  let base_price : ℚ :=
    match it.pool_variant with
    | some pv => pv.variant_price
    | none =>
      match it.store_item with
      | some si => si.price
      | none => 0
  let it1 := { it with unit_price := base_price }
  let it2 := it1.recalc_line_totals
  let install_amount : ℚ :=
    if it2.install_selected then
      let per_item_install : ℚ :=
        match it2.pool_variant with
        | some pv => pv.estimate_install_cost distance_miles
        | none =>
          match it2.store_item with
          | some si => si.estimate_install_cost distance_miles
          | none => 0
      per_item_install * (it2.quantity : ℚ)
    else 0
  let it3 := { it2 with line_install_amount := install_amount }
  let with_install_for_shipping : Bool :=
    it3.install_selected ||
      (hpi && (match line_shipping_group it3 with
               | some sg => sg.free_with_install
               | none => false))
  let per_item_ship : ℚ :=
    match it3.pool_variant with
    | some pv => pv.estimate_shipping_cost distance_miles with_install_for_shipping
    | none =>
      match it3.store_item with
      | some si => si.estimate_shipping_cost distance_miles with_install_for_shipping
      | none => 0
  { it3 with line_shipping_amount := per_item_ship * (it3.quantity : ℚ) }

/-- `Order.recalc_totals`: aggregate `subtotal`, `shipping_total` and
`install_total` over the lines, zero `tax_total`, and recompute
`grand_total` (the trailing `+ 0` is the tax term). -/
def Order.recalc_totals (o : Order) : Order :=
  let subtotal := (o.items.map (fun it => it.line_subtotal)).sum
  let shipping_total := (o.items.map (fun it => it.line_shipping_amount)).sum
  let install_total := (o.items.map (fun it => it.line_install_amount)).sum
  { o with
    subtotal := subtotal
    shipping_total := shipping_total
    install_total := install_total
    tax_total := 0
    grand_total := subtotal + shipping_total + install_total + o.permit_total + 0 }

/-- `Order.apply_pricing` after distance resolution: classify the order,
resolve (and persist) the service area, price each line, compute the
one-shot permit total (pool charge when any pool install, else accessory
charge when any accessory install, else 0; 0 without a service area) and
recompute the order totals. -/
def Order.apply_pricing_core (db : List (ZipLocation ℚ)) (gs : GlobalSettings)
    (o : Order) (dist : ℚ) : Order :=
  let hpi := has_pool_install o.items
  let hai := has_accessory_install o.items
  let rsa := resolve_service_area db o.zip_location o.zip_code
  let items2 := o.items.map (price_line dist hpi)
  let permit_total : ℚ :=
    match rsa.2 with
    | some area =>
      if hpi then area.get_pool_permit_charge gs
      else if hai then area.get_accessory_permit_charge gs
      else 0
    | none => 0
  Order.recalc_totals
    { o with zip_location := rsa.1, items := items2, permit_total := permit_total }

/-- `Order.apply_pricing`: when no distance argument is given, resolve
it from ZIP data, falling back to `0` when the resolver returns `None`
(a `TypeError` raised inside the resolver propagates). -/
def Order.apply_pricing (hav : ℚ → ℚ → ℚ → ℚ → ℚ) (db : List (ZipLocation ℚ))
    (gs : GlobalSettings) (o : Order) (distance_miles : Option ℚ) :
    Except PyError Order :=
  match distance_miles with
  | some d => Except.ok (o.apply_pricing_core db gs d)
  | none =>
    match o.calculate_distance hav db gs none with
    | Except.ok d => Except.ok (o.apply_pricing_core db gs (d.getD 0))
    | Except.error e => Except.error e

/-- `Order.assign_install_queue_position` over a snapshot of the order
table: no-op without a service area on the linked `zip_location`; set
`install_service_area` when different; keep an existing queue position;
otherwise use the count of queued orders in the area plus one. -/
def Order.assign_install_queue_position (allOrders : List Order) (o : Order) :
    Order :=
  match o.zip_location.bind (fun l => l.service_area) with
  | none => o
  | some sa =>
    let o1 :=
      if o.install_service_area.map (fun a => a.id) ≠ some sa.id then
        { o with install_service_area := some sa }
      else o
    match o1.install_queue_position with
    | some _ => o1
    | none =>
      let next_pos :=
        (allOrders.filter (fun q =>
          (q.install_service_area.map (fun a => a.id) == some sa.id)
            && q.install_queue_position.isSome)).length + 1
      { o1 with install_queue_position := some next_pos }

/-- `math.radians`: degrees to radians. -/
noncomputable def radians (deg : ℝ) : ℝ :=
  deg * Real.pi / 180

/-- `math.atan2` on the reals, by the usual quadrant case split. -/
noncomputable def atan2 (y x : ℝ) : ℝ :=
  if 0 < x then Real.arctan (y / x)
  else if x < 0 then
    (if 0 ≤ y then Real.arctan (y / x) + Real.pi
     else Real.arctan (y / x) - Real.pi)
  else
    (if 0 < y then Real.pi / 2
     else if y < 0 then -(Real.pi / 2)
     else 0)

/-- `haversine_miles` from `utils.py`: great-circle distance with Earth
radius 3958.8 miles. -/
noncomputable def haversine_miles (lat1 lon1 lat2 lon2 : ℝ) : ℝ :=
  let R : ℝ := 3958.8
  let d_lat := radians (lat2 - lat1)
  let d_lon := radians (lon2 - lon1)
  let rlat1 := radians lat1
  let rlat2 := radians lat2
  let a := Real.sin (d_lat / 2) ^ 2
    + Real.cos rlat1 * Real.cos rlat2 * Real.sin (d_lon / 2) ^ 2
  let c := 2 * atan2 (Real.sqrt a) (Real.sqrt (1 - a))
  R * c

/-- A placeholder haversine kernel for concrete runs that either supply
the distance explicitly or never reach the kernel. -/
def hv0 : ℚ → ℚ → ℚ → ℚ → ℚ := fun _ _ _ _ => 0

/-- Concrete service area: pool fee 50 + 2h, accessory fee 30 + 1h. -/
def saW : ServiceArea := ⟨1, 50, 30, 2, 1⟩

/-- Concrete settings: hourly rate 25, base ZIP "B". -/
def gsW : GlobalSettings := ⟨some 25, "B"⟩

/-- Concrete shipping group: flat 20, 0.50 per mile, no waiver. -/
def sgW : ShippingGroup := ⟨20, 1/2, false⟩

/-- Concrete shipping group with the install waiver. -/
def sgFreeW : ShippingGroup := ⟨25, 1, true⟩

/-- Concrete installable store item (base 150, 50 included miles,
1.50 per mile). -/
def siW : StoreItem := ⟨100, some sgW, true, 150, 50, 3/2⟩

/-- Concrete non-installable store item on the waiver shipping group. -/
def siFreeW : StoreItem := ⟨80, some sgFreeW, false, 0, 0, 0⟩

/-- Concrete pool variant: 2 days at 300/day, waiver shipping group. -/
def pvW : PoolVariant := ⟨5000, some sgFreeW, 2, 300, 50, 2⟩

/-- A pool line with install selected. -/
def itemPoolW : OrderItem := ⟨some pvW, none, 1, 0, 0, true, 0, 0⟩

/-- An equipment line without install. -/
def itemEquipW : OrderItem := ⟨none, some siW, 2, 0, 0, false, 0, 0⟩

/-- An equipment line on the waiver group, install not selected. -/
def itemFreeW : OrderItem := ⟨none, some siFreeW, 1, 0, 0, false, 0, 0⟩

/-- A ZIP record linked to `saW`. -/
def zlW : ZipLocation ℚ := ⟨"C", some 1, some 1, some saW⟩

/-- A concrete order: pool install plus two equipment lines. -/
def ordW : Order := ⟨"C", some zlW, none, none, [itemPoolW, itemEquipW, itemFreeW], 0, 0, 0, 0, 0, 0⟩

/-- Base ZIP record with coordinates, for the idempotence counterexample. -/
def baseQ : ZipLocation ℚ := ⟨"B", some 1, some 1, none⟩

/-- A linked ZIP record with no coordinates and no service area. -/
def zl1 : ZipLocation ℚ := ⟨"Z1", none, none, none⟩

/-- The record found for the order ZIP: latitude stored, longitude `NULL`. -/
def cRow : ZipLocation ℚ := ⟨"C", some 5, none, none⟩

/-- ZIP table for the idempotence counterexample. -/
def db4 : List (ZipLocation ℚ) := [baseQ, zl1, cRow]

/-- Settings for the idempotence counterexample. -/
def gs4 : GlobalSettings := ⟨some 50, "B"⟩

/-- Order whose linked `zip_location` disagrees with its `zip_code`:
reachable because the cart view updates `zip_code` without clearing
`zip_location`. -/
def ord4 : Order := ⟨"C", some zl1, none, none, [itemEquipW], 0, 0, 0, 0, 0, 0⟩

/-- A line that resolves to no priceable at all. -/
def itemNone6 : OrderItem := ⟨none, none, 1, 3, 3, true, 3, 3⟩

/-- Order containing only the unresolvable line. -/
def ord6 : Order := ⟨"", none, none, none, [itemNone6], 0, 0, 0, 0, 0, 0⟩

/-- Settings with the global hourly rate missing. -/
def gs7 : GlobalSettings := ⟨none, "B"⟩

/-- ZIP record linked to `saW`, used with the missing hourly rate. -/
def zl7 : ZipLocation ℚ := ⟨"C", none, none, some saW⟩

/-- Order with a pool install in the `saW` area. -/
def ord7 : Order := ⟨"C", some zl7, none, none, [itemPoolW], 0, 0, 0, 0, 0, 0⟩

/-- Order whose only install-selected line is non-installable equipment. -/
def ord10 : Order := ⟨"C", some zlW, none, none, [⟨none, some siFreeW, 1, 0, 0, true, 0, 0⟩, itemEquipW], 0, 0, 0, 0, 0, 0⟩

/-- Order in the `saW` area awaiting a queue position. -/
def ord9 : Order := ⟨"C", some zl7, none, none, [], 0, 0, 0, 0, 0, 0⟩

/-- Another order in the area, already queued at position 1. -/
def ordQueued9 : Order := ⟨"", none, some saW, some 1, [], 0, 0, 0, 0, 0, 0⟩

/-- An order in the area that is not queued yet. -/
def ordNull9 : Order := ⟨"", none, some saW, none, [], 0, 0, 0, 0, 0, 0⟩

/-- Real-coordinate base record missing its longitude. -/
def baseR : ZipLocation ℝ := ⟨"B", some 0, none, none⟩

/-- Real-coordinate base record with full coordinates. -/
def baseR2 : ZipLocation ℝ := ⟨"B", some 0, some 0, none⟩

/-- Real-coordinate customer record with full coordinates. -/
def custR : ZipLocation ℝ := ⟨"C", some 1, some 1, none⟩

/-- Settings for the distance-resolver runs. -/
def gsR : GlobalSettings := ⟨some 50, "B"⟩

/-- `price_line` writes only computed amounts: the catalog reference to a
pool variant is untouched. -/
theorem price_line_pool_variant (d : ℚ) (hpi : Bool) (it : OrderItem) :
    (price_line d hpi it).pool_variant = it.pool_variant := rfl

/-- `price_line` leaves the store-item reference untouched. -/
theorem price_line_store_item (d : ℚ) (hpi : Bool) (it : OrderItem) :
    (price_line d hpi it).store_item = it.store_item := rfl

/-- `price_line` leaves the quantity untouched. -/
theorem price_line_quantity (d : ℚ) (hpi : Bool) (it : OrderItem) :
    (price_line d hpi it).quantity = it.quantity := rfl

/-- `price_line` leaves the install-selected flag untouched. -/
theorem price_line_install_selected (d : ℚ) (hpi : Bool) (it : OrderItem) :
    (price_line d hpi it).install_selected = it.install_selected := rfl

/-- Re-pricing a line with the same inputs rewrites the same values. -/
theorem price_line_idem (d : ℚ) (hpi : Bool) (it : OrderItem) :
    price_line d hpi (price_line d hpi it) = price_line d hpi it := rfl

/-- Order classification only reads fields `price_line` preserves. -/
theorem has_pool_install_map (d : ℚ) (hpi : Bool) (items : List OrderItem) :
    has_pool_install (items.map (price_line d hpi)) = has_pool_install items := by
  simp [has_pool_install, List.any_map, Function.comp_def,
    price_line_pool_variant, price_line_install_selected]

/-- Order classification only reads fields `price_line` preserves. -/
theorem has_accessory_install_map (d : ℚ) (hpi : Bool) (items : List OrderItem) :
    has_accessory_install (items.map (price_line d hpi))
      = has_accessory_install items := by
  simp [has_accessory_install, List.any_map, Function.comp_def,
    price_line_store_item, price_line_install_selected]

/-- Re-resolving the service area from the persisted `zip_location`
yields the same pair: the resolution step is a projection. -/
theorem resolve_service_area_stable (db : List (ZipLocation ℚ))
    (zl : Option (ZipLocation ℚ)) (zc : String) :
    resolve_service_area db (resolve_service_area db zl zc).1 zc
      = resolve_service_area db zl zc := by
  by_cases h1 : (zl.bind (fun l => l.service_area)).isSome
  · simp only [resolve_service_area, h1, if_true]
  · by_cases h2 : zc = ""
    · simp [resolve_service_area, h1, h2]
    · rcases hf : find_zip db zc with _ | z
      · simp [resolve_service_area, h1, h2, hf]
      · rcases hsa : z.service_area with _ | sa
        · simp [resolve_service_area, h1, h2, hf, hsa]
        · simp [resolve_service_area, h1, h2, hf, hsa]

/-- A successful `apply_pricing` run is `apply_pricing_core` at the
resolved distance. -/
theorem apply_pricing_eq_ok {hav : ℚ → ℚ → ℚ → ℚ → ℚ}
    {db : List (ZipLocation ℚ)} {gs : GlobalSettings} {o o' : Order}
    {darg : Option ℚ} (h : o.apply_pricing hav db gs darg = Except.ok o') :
    ∃ d : ℚ, o' = o.apply_pricing_core db gs d := by
  cases darg with
  | some d =>
    refine ⟨d, ?_⟩
    simpa [Order.apply_pricing] using h.symm
  | none =>
    rcases hcd : o.calculate_distance hav db gs none with e | d
    · rw [Order.apply_pricing, hcd] at h
      cases h
    · refine ⟨d.getD 0, ?_⟩
      rw [Order.apply_pricing, hcd] at h
      simpa using h.symm

/-- `recalc_totals` keeps the line list. -/
theorem recalc_totals_items (o : Order) : o.recalc_totals.items = o.items := rfl

/-- `recalc_totals` keeps the permit total. -/
theorem recalc_totals_permit (o : Order) :
    o.recalc_totals.permit_total = o.permit_total := rfl

/-- The fields of `apply_pricing_core`: persisted `zip_location`,
re-priced lines, the one-shot permit total and the recomputed totals. -/
theorem apply_pricing_core_items (db : List (ZipLocation ℚ))
    (gs : GlobalSettings) (o : Order) (d : ℚ) :
    (o.apply_pricing_core db gs d).items
      = o.items.map (price_line d (has_pool_install o.items)) := rfl

/-- `apply_pricing_core` persists the resolved `zip_location`. -/
theorem apply_pricing_core_zip_location (db : List (ZipLocation ℚ))
    (gs : GlobalSettings) (o : Order) (d : ℚ) :
    (o.apply_pricing_core db gs d).zip_location
      = (resolve_service_area db o.zip_location o.zip_code).1 := rfl

/-- `apply_pricing_core` never touches the stored ZIP string. -/
theorem apply_pricing_core_zip_code (db : List (ZipLocation ℚ))
    (gs : GlobalSettings) (o : Order) (d : ℚ) :
    (o.apply_pricing_core db gs d).zip_code = o.zip_code := rfl

/-- The permit total written by `apply_pricing_core`. -/
theorem apply_pricing_core_permit (db : List (ZipLocation ℚ))
    (gs : GlobalSettings) (o : Order) (d : ℚ) :
    (o.apply_pricing_core db gs d).permit_total
      = match (resolve_service_area db o.zip_location o.zip_code).2 with
        | some area =>
          if has_pool_install o.items then area.get_pool_permit_charge gs
          else if has_accessory_install o.items then
            area.get_accessory_permit_charge gs
          else 0
        | none => 0 := rfl

/-- `recalc_totals` ignores the previous totals: records agreeing on
every other field recalculate to the same order. -/
theorem recalc_totals_congr {x y : Order} (hzc : x.zip_code = y.zip_code)
    (hzl : x.zip_location = y.zip_location)
    (hisa : x.install_service_area = y.install_service_area)
    (hqp : x.install_queue_position = y.install_queue_position)
    (hitems : x.items = y.items) (hpermit : x.permit_total = y.permit_total) :
    x.recalc_totals = y.recalc_totals := by
  cases x
  cases y
  simp only at hzc hzl hisa hqp hitems hpermit
  simp [Order.recalc_totals, hzc, hzl, hisa, hqp, hitems, hpermit]

/-- Re-running the pure pricing core at the same distance is the
identity on already-priced orders. -/
theorem apply_pricing_core_idem (db : List (ZipLocation ℚ))
    (gs : GlobalSettings) (o : Order) (d : ℚ) :
    (o.apply_pricing_core db gs d).apply_pricing_core db gs d
      = o.apply_pricing_core db gs d := by
  show Order.recalc_totals _ = Order.recalc_totals _
  apply recalc_totals_congr
  · rfl
  · show (resolve_service_area db (o.apply_pricing_core db gs d).zip_location
        (o.apply_pricing_core db gs d).zip_code).1
      = (resolve_service_area db o.zip_location o.zip_code).1
    rw [apply_pricing_core_zip_location, apply_pricing_core_zip_code,
      resolve_service_area_stable]
  · rfl
  · rfl
  · show (o.apply_pricing_core db gs d).items.map
        (price_line d (has_pool_install (o.apply_pricing_core db gs d).items))
      = o.items.map (price_line d (has_pool_install o.items))
    rw [apply_pricing_core_items, has_pool_install_map, List.map_map]
    exact List.map_congr_left (fun it _ => price_line_idem d _ it)
  · show (match (resolve_service_area db (o.apply_pricing_core db gs d).zip_location
        (o.apply_pricing_core db gs d).zip_code).2 with
        | some area =>
          if has_pool_install (o.apply_pricing_core db gs d).items then
            area.get_pool_permit_charge gs
          else if has_accessory_install (o.apply_pricing_core db gs d).items then
            area.get_accessory_permit_charge gs
          else 0
        | none => 0)
      = _
    rw [apply_pricing_core_zip_location, apply_pricing_core_zip_code,
      resolve_service_area_stable, apply_pricing_core_items,
      has_pool_install_map, has_accessory_install_map]

/-- When the order had no linked `zip_location`, or a linked one that
already carried a service area, the location persisted by pricing
resolves the same customer location again. -/
theorem resolve_customer_loc_after_pricing (db : List (ZipLocation ℚ))
    (zl : Option (ZipLocation ℚ)) (zc : String)
    (hcase : zl = none ∨ (zl.bind (fun l => l.service_area)).isSome = true) :
    resolve_customer_loc db (resolve_service_area db zl zc).1 zc none
      = resolve_customer_loc db zl zc none := by
  rcases hcase with rfl | h
  · by_cases h2 : zc = ""
    · simp [resolve_service_area, resolve_customer_loc, h2]
    · rcases hf : find_zip db zc with _ | z
      · simp [resolve_service_area, resolve_customer_loc, h2, hf]
      · simp [resolve_service_area, resolve_customer_loc, h2, hf]
  · simp [resolve_service_area, h]

/-- Distance auto-resolution is unchanged by a pricing run, for orders
coming from the states of `resolve_customer_loc_after_pricing`. -/
theorem calculate_distance_after_pricing (hav : ℚ → ℚ → ℚ → ℚ → ℚ)
    (db : List (ZipLocation ℚ)) (gs : GlobalSettings) (o : Order) (d : ℚ)
    (hcase : o.zip_location = none
      ∨ (o.zip_location.bind (fun l => l.service_area)).isSome = true) :
    (o.apply_pricing_core db gs d).calculate_distance hav db gs none
      = o.calculate_distance hav db gs none := by
  show calculate_distance_core hav db gs (o.apply_pricing_core db gs d).zip_location
      (o.apply_pricing_core db gs d).zip_code none
    = calculate_distance_core hav db gs o.zip_location o.zip_code none
  rw [apply_pricing_core_zip_location, apply_pricing_core_zip_code]
  simp only [calculate_distance_core]
  rw [resolve_customer_loc_after_pricing db o.zip_location o.zip_code hcase]

/-- C4 (amended): `apply_pricing` is idempotent whenever the distance
argument is given explicitly, and also with automatic distance
resolution provided the order enters pricing with either no linked
`zip_location` or a linked one already carrying a service area (so the
first run does not swap `zip_location` for a record with different
coordinates).  The second run then returns exactly the first run's
output: same per-line amounts and same totals. -/
theorem C4_apply_pricing_idempotent (hav : ℚ → ℚ → ℚ → ℚ → ℚ)
    (db : List (ZipLocation ℚ)) (gs : GlobalSettings) (o o1 o2 : Order)
    (darg : Option ℚ)
    (hcase : (∃ d : ℚ, darg = some d)
      ∨ (darg = none ∧ (o.zip_location = none
          ∨ (o.zip_location.bind (fun l => l.service_area)).isSome = true)))
    (h1 : o.apply_pricing hav db gs darg = Except.ok o1)
    (h2 : o1.apply_pricing hav db gs darg = Except.ok o2) :
    o2 = o1 := by
  rcases hcase with ⟨d, rfl⟩ | ⟨rfl, hzl⟩
  · simp only [Order.apply_pricing, Except.ok.injEq] at h1 h2
    rw [← h2, ← h1, apply_pricing_core_idem]
  · rcases hcd : o.calculate_distance hav db gs none with e | dv
    · rw [Order.apply_pricing, hcd] at h1
      cases h1
    · rw [Order.apply_pricing, hcd] at h1
      simp only [Except.ok.injEq] at h1
      have hcd2 : o1.calculate_distance hav db gs none = Except.ok dv := by
        rw [← h1, calculate_distance_after_pricing hav db gs o _ hzl, hcd]
      rw [Order.apply_pricing, hcd2] at h2
      simp only [Except.ok.injEq] at h2
      rw [← h2, ← h1, apply_pricing_core_idem]

/-- Witness for C4: a second pricing run at the same explicit distance
returns the first run's output unchanged. -/
theorem C4_witness :
    (ordW.apply_pricing_core [] gsW 40).apply_pricing hv0 [] gsW (some 40)
      = Except.ok (ordW.apply_pricing_core [] gsW 40) := by
  have h1 : ordW.apply_pricing hv0 [] gsW (some 40)
      = Except.ok (ordW.apply_pricing_core [] gsW 40) := rfl
  have h2 : (ordW.apply_pricing_core [] gsW 40).apply_pricing hv0 [] gsW (some 40)
      = Except.ok ((ordW.apply_pricing_core [] gsW 40).apply_pricing_core [] gsW 40) := rfl
  rw [h2, C4_apply_pricing_idempotent hv0 [] gsW ordW
    (ordW.apply_pricing_core [] gsW 40)
    ((ordW.apply_pricing_core [] gsW 40).apply_pricing_core [] gsW 40)
    (some 40) (Or.inl ⟨40, rfl⟩) h1 h2]

/-- Counterexample to C4 as stated: an order whose `zip_code` and linked
`zip_location` disagree (the cart view updates `zip_code` without
clearing `zip_location`).  The first run prices at the fallback distance
0 (the linked record has no latitude) and persists the looked-up record,
whose longitude is `NULL`; the second run with the same `None` distance
argument then raises a `TypeError` inside `haversine_miles` instead of
reproducing the first run's totals. -/
theorem C4_counterexample :
    (ord4.apply_pricing hv0 db4 gs4 none).isOk = true
    ∧ (ord4.apply_pricing hv0 db4 gs4 none).bind
        (fun o1 => o1.apply_pricing hv0 db4 gs4 none)
      = Except.error PyError.typeError :=
  ⟨rfl, rfl⟩

/-- C1: after `apply_pricing` completes, `subtotal`, `shipping_total`
and `install_total` are the sums of the per-line amounts, `tax_total`
is 0, and `grand_total` is the sum of the five aggregate components. -/
theorem C1_totals_invariant (hav : ℚ → ℚ → ℚ → ℚ → ℚ)
    (db : List (ZipLocation ℚ)) (gs : GlobalSettings) (darg : Option ℚ)
    (o o' : Order) (h : o.apply_pricing hav db gs darg = Except.ok o') :
    o'.subtotal = (o'.items.map (fun it => it.line_subtotal)).sum
    ∧ o'.shipping_total = (o'.items.map (fun it => it.line_shipping_amount)).sum
    ∧ o'.install_total = (o'.items.map (fun it => it.line_install_amount)).sum
    ∧ o'.tax_total = 0
    ∧ o'.grand_total = o'.subtotal + o'.shipping_total + o'.install_total
        + o'.permit_total + o'.tax_total := by
  obtain ⟨d, rfl⟩ := apply_pricing_eq_ok h
  exact ⟨rfl, rfl, rfl, rfl, rfl⟩

/-- Witness for C1 on a concrete three-line order. -/
theorem C1_witness :
    (ordW.apply_pricing_core [] gsW 40).grand_total
      = (ordW.apply_pricing_core [] gsW 40).subtotal
        + (ordW.apply_pricing_core [] gsW 40).shipping_total
        + (ordW.apply_pricing_core [] gsW 40).install_total
        + (ordW.apply_pricing_core [] gsW 40).permit_total
        + (ordW.apply_pricing_core [] gsW 40).tax_total :=
  (C1_totals_invariant hv0 [] gsW (some 40) ordW _ rfl).2.2.2.2

/-- C2: the permit total is decided once per order, with the pool charge
taking strict priority over the accessory charge, never their sum;
without a resolved service area it is 0 and pricing still succeeds. -/
theorem C2_permit_priority (hav : ℚ → ℚ → ℚ → ℚ → ℚ)
    (db : List (ZipLocation ℚ)) (gs : GlobalSettings) (darg : Option ℚ)
    (o o' : Order) (sa : ServiceArea)
    (h : o.apply_pricing hav db gs darg = Except.ok o') :
    ((resolve_service_area db o.zip_location o.zip_code).2 = some sa →
      o'.permit_total
        = if has_pool_install o.items then sa.get_pool_permit_charge gs
          else if has_accessory_install o.items then
            sa.get_accessory_permit_charge gs
          else 0)
    ∧ ((resolve_service_area db o.zip_location o.zip_code).2 = none →
      o'.permit_total = 0)
    ∧ sa.get_pool_permit_charge gs
        = sa.permit_pool_fee_base + sa.permit_pool_labor_hours * get_hourly_rate gs
    ∧ (∀ d : ℚ, (o.apply_pricing hav db gs (some d)).isOk = true) := by
  obtain ⟨d, rfl⟩ := apply_pricing_eq_ok h
  refine ⟨?_, ?_, rfl, fun _ => rfl⟩
  · intro hsa
    rw [apply_pricing_core_permit, hsa]
  · intro hsa
    rw [apply_pricing_core_permit, hsa]

/-- Witness for C2: a pool and an accessory install are both present,
only the pool permit charge (50 + 2 * 25 = 100) is levied. -/
theorem C2_witness : (ordW.apply_pricing_core [] gsW 40).permit_total = 100 := by
  have h := (C2_permit_priority hv0 [] gsW (some 40) ordW _ saW rfl).1 rfl
  have hpi : has_pool_install ordW.items = true := by decide
  rw [h, if_pos hpi]
  simp only [saW, gsW, ServiceArea.get_pool_permit_charge, get_hourly_rate]
  norm_num

/-- With a pool install anywhere in the order, a line whose shipping
group opts into `free_with_install` ships for 0. -/
theorem price_line_shipping_zero (d : ℚ) (it : OrderItem) (sg : ShippingGroup)
    (hsg : line_shipping_group it = some sg)
    (hfree : sg.free_with_install = true) :
    (price_line d true it).line_shipping_amount = 0 := by
  rcases it with ⟨pv, si, q, up, ls, sel, lia, lsa⟩
  rcases pv with _ | pvv
  · rcases si with _ | siv
    · simp [line_shipping_group] at hsg
    · rcases hsig : siv.shipping_group with _ | g
      · simp [line_shipping_group, hsig] at hsg
      · have hg : g = sg := by
          simpa [line_shipping_group, hsig] using hsg
        subst hg
        simp [price_line, OrderItem.recalc_line_totals, line_shipping_group,
          hsig, StoreItem.estimate_shipping_cost, ShippingGroup.estimate_cost,
          hfree]
  · rcases hpg : pvv.shipping_group with _ | g
    · simp [price_line, OrderItem.recalc_line_totals,
        PoolVariant.estimate_shipping_cost, hpg]
    · have hg : g = sg := by
        simpa [line_shipping_group, hpg] using hsg
      subst hg
      simp [price_line, OrderItem.recalc_line_totals, line_shipping_group,
        hpg, PoolVariant.estimate_shipping_cost, ShippingGroup.estimate_cost,
        hfree]

/-- C3: when any pool line has install selected, every line whose
shipping group has `free_with_install` gets `line_shipping_amount = 0`
from `apply_pricing`, whether or not its own install is selected. -/
theorem C3_cross_line_free_shipping (hav : ℚ → ℚ → ℚ → ℚ → ℚ)
    (db : List (ZipLocation ℚ)) (gs : GlobalSettings) (darg : Option ℚ)
    (o o' : Order) (h : o.apply_pricing hav db gs darg = Except.ok o')
    (hpi : has_pool_install o.items = true)
    (i : ℕ) (it : OrderItem) (hit : o.items[i]? = some it)
    (sg : ShippingGroup) (hsg : line_shipping_group it = some sg)
    (hfree : sg.free_with_install = true) :
    (o'.items[i]?.map (fun x => x.line_shipping_amount)) = some 0 := by
  obtain ⟨d, rfl⟩ := apply_pricing_eq_ok h
  rw [apply_pricing_core_items, List.getElem?_map, hit, hpi]
  simpa using price_line_shipping_zero d it sg hsg hfree

/-- Witness for C3: the spec scenario — a pool line with install
selected plus an unrelated equipment line on a `free_with_install`
group with install not selected; the equipment line ships for 0. -/
theorem C3_witness :
    ((ordW.apply_pricing_core [] gsW 40).items[2]?.map
      (fun x => x.line_shipping_amount)) = some 0 :=
  C3_cross_line_free_shipping hv0 [] gsW (some 40) ordW _ rfl rfl
    2 itemFreeW rfl sgFreeW rfl rfl

/-- C5: the equipment install estimate is
`base + max 0 (distance - included) * per_mile` when installable, and 0
otherwise. -/
theorem C5_estimate_install (si : StoreItem) (d : ℚ) :
    (si.is_installable = true →
      si.estimate_install_cost d
        = si.install_base_rate
          + max 0 (d - (si.install_included_miles : ℚ)) * si.install_per_mile_rate)
    ∧ (si.is_installable = false → si.estimate_install_cost d = 0) := by
  constructor
  · intro h
    simp only [StoreItem.estimate_install_cost, h]
    rcases le_or_lt 0 (d - (si.install_included_miles : ℚ)) with hle | hlt
    · rw [if_neg (by simp), if_neg (not_lt.mpr hle), max_eq_right hle]
    · rw [if_neg (by simp), if_pos hlt, max_eq_left hlt.le]
  · intro h
    simp [StoreItem.estimate_install_cost, h]

/-- Witness for C5, the spec scenario: base 150, included 50, per-mile
1.50; distance 80 gives 195, distance 30 clamps to the base 150. -/
theorem C5_witness :
    siW.estimate_install_cost 80 = 195 ∧ siW.estimate_install_cost 30 = 150 := by
  refine ⟨?_, ?_⟩
  · rw [(C5_estimate_install siW 80).1 rfl]
    simp only [siW]
    norm_num [max_def]
  · rw [(C5_estimate_install siW 30).1 rfl]
    simp only [siW]
    norm_num [max_def]

/-- A line with no catalog reference is priced as zero, not rejected. -/
theorem price_line_none_zero (d : ℚ) (hpi : Bool) (it : OrderItem)
    (hpv : it.pool_variant = none) (hsi : it.store_item = none) :
    (price_line d hpi it).unit_price = 0
    ∧ (price_line d hpi it).line_subtotal = 0
    ∧ (price_line d hpi it).line_install_amount = 0
    ∧ (price_line d hpi it).line_shipping_amount = 0 := by
  rcases it with ⟨pv, si, q, up, ls, sel, lia, lsa⟩
  simp only at hpv hsi
  subst hpv
  subst hsi
  refine ⟨rfl, ?_, ?_, ?_⟩ <;>
    simp [price_line, OrderItem.recalc_line_totals, line_shipping_group]

/-- Counterexample to C6 as stated: an order whose single line resolves
to no priceable is priced successfully — `apply_pricing` returns a
result, it does not fail fast. -/
theorem C6_counterexample :
    ord6.apply_pricing hv0 [] gsW (some 10)
      = Except.ok (ord6.apply_pricing_core [] gsW 10)
    ∧ (ord6.apply_pricing hv0 [] gsW (some 10)).isOk = true :=
  ⟨rfl, rfl⟩

/-- C6 (amended): a line resolving to no priceable does not abort
`apply_pricing`; the run succeeds and the line is silently priced as
zero (unit price, subtotal, install and shipping all 0). -/
theorem C6_no_priceable_priced_zero (hav : ℚ → ℚ → ℚ → ℚ → ℚ)
    (db : List (ZipLocation ℚ)) (gs : GlobalSettings) (darg : Option ℚ)
    (o o' : Order) (h : o.apply_pricing hav db gs darg = Except.ok o')
    (i : ℕ) (it : OrderItem) (hit : o.items[i]? = some it)
    (hpv : it.pool_variant = none) (hsi : it.store_item = none) :
    (o'.items[i]?.map (fun x =>
      (x.unit_price, x.line_subtotal, x.line_install_amount,
        x.line_shipping_amount))) = some (0, 0, 0, 0)
    ∧ (∀ d : ℚ, (o.apply_pricing hav db gs (some d)).isOk = true) := by
  obtain ⟨d, rfl⟩ := apply_pricing_eq_ok h
  refine ⟨?_, fun _ => rfl⟩
  rw [apply_pricing_core_items, List.getElem?_map, hit]
  obtain ⟨h1, h2, h3, h4⟩ :=
    price_line_none_zero d (has_pool_install o.items) it hpv hsi
  simp [h1, h2, h3, h4]

/-- Witness for the amended C6 at the concrete one-line order. -/
theorem C6_witness :
    ((ord6.apply_pricing_core [] gsW 10).items[0]?.map (fun x =>
      (x.unit_price, x.line_subtotal, x.line_install_amount,
        x.line_shipping_amount))) = some (0, 0, 0, 0)
    ∧ (∀ d : ℚ, (ord6.apply_pricing hv0 [] gsW (some d)).isOk = true) :=
  C6_no_priceable_priced_zero hv0 [] gsW (some 10) ord6 _ rfl 0 itemNone6
    rfl rfl rfl

/-- Counterexample to C7 as stated: with the global hourly rate missing,
a pricing run that needs it succeeds anyway — the rate silently degrades
to 0 and the pool permit charge collapses to its base fee. -/
theorem C7_counterexample :
    get_hourly_rate gs7 = 0
    ∧ (ord7.apply_pricing hv0 [] gs7 (some 0)).isOk = true
    ∧ (ord7.apply_pricing_core [] gs7 0).permit_total = 50 := by
  refine ⟨rfl, rfl, ?_⟩
  have h1 : (resolve_service_area [] ord7.zip_location ord7.zip_code).2
      = some saW := rfl
  have h2 : has_pool_install ord7.items = true := by decide
  rw [apply_pricing_core_permit, h1]
  simp only [h2, if_true, saW, gs7, ServiceArea.get_pool_permit_charge,
    get_hourly_rate]
  norm_num

/-- C7 (amended): a missing global hourly rate does not fail a pricing
run: `_get_hourly_rate` substitutes `Decimal("0.00")`, permit charges
degrade to their base fees, and `apply_pricing` still succeeds. -/
theorem C7_missing_rate_fallback (gs : GlobalSettings)
    (hmiss : gs.permit_labor_hourly_rate = none) :
    get_hourly_rate gs = 0
    ∧ (∀ sa : ServiceArea,
        sa.get_pool_permit_charge gs = sa.permit_pool_fee_base
        ∧ sa.get_accessory_permit_charge gs = sa.permit_accessory_fee_base)
    ∧ (∀ (hav : ℚ → ℚ → ℚ → ℚ → ℚ) (db : List (ZipLocation ℚ)) (o : Order)
        (d : ℚ), (o.apply_pricing hav db gs (some d)).isOk = true) := by
  have h0 : get_hourly_rate gs = 0 := by simp [get_hourly_rate, hmiss]
  refine ⟨h0, fun sa => ⟨?_, ?_⟩, fun _ _ _ _ => rfl⟩
  · simp [ServiceArea.get_pool_permit_charge, h0]
  · simp [ServiceArea.get_accessory_permit_charge, h0]

/-- Witness for the amended C7 at the concrete settings row. -/
theorem C7_witness :
    get_hourly_rate gs7 = 0 ∧ saW.get_pool_permit_charge gs7 = 50 :=
  ⟨(C7_missing_rate_fallback gs7 rfl).1,
    ((C7_missing_rate_fallback gs7 rfl).2.1 saW).1.trans rfl⟩

/-- C9: queue assignment is a no-op without a service area on the
linked location, write-once for an already-queued order, and otherwise
writes `count(queued orders in the area) + 1`. -/
theorem C9_queue_assignment (allOrders : List Order) (o : Order)
    (sa : ServiceArea) (p : ℕ) :
    (o.zip_location.bind (fun l => l.service_area) = none →
      o.assign_install_queue_position allOrders = o)
    ∧ (o.install_queue_position = some p →
      (o.assign_install_queue_position allOrders).install_queue_position
        = some p)
    ∧ (o.zip_location.bind (fun l => l.service_area) = some sa →
      o.install_queue_position = none →
      (o.assign_install_queue_position allOrders).install_queue_position
        = some ((allOrders.filter (fun q =>
            (q.install_service_area.map (fun a => a.id) == some sa.id)
              && q.install_queue_position.isSome)).length + 1)) := by
  refine ⟨?_, ?_, ?_⟩
  · intro h
    simp [Order.assign_install_queue_position, h]
  · intro h
    rcases hsa : o.zip_location.bind (fun l => l.service_area) with _ | sa2
    · simp [Order.assign_install_queue_position, hsa, h]
    · by_cases hc : o.install_service_area.map (fun a => a.id) = some sa2.id
      · simp [Order.assign_install_queue_position, hsa, hc, h]
      · simp [Order.assign_install_queue_position, hsa, hc, h]
  · intro hsa hnone
    by_cases hc : o.install_service_area.map (fun a => a.id) = some sa.id
    · simp [Order.assign_install_queue_position, hsa, hc, hnone]
    · simp [Order.assign_install_queue_position, hsa, hc, hnone]

/-- Witness for C9: one order queued at position 1 and one unqueued
order in the area; the next assignment takes position 2. -/
theorem C9_witness :
    (ord9.assign_install_queue_position [ordQueued9, ordNull9]).install_queue_position
      = some 2 := by
  have h := (C9_queue_assignment [ordQueued9, ordNull9] ord9 saW 0).2.2 rfl rfl
  rw [h]
  decide

/-- Install amount for a selected but non-installable equipment line. -/
theorem price_line_install_zero (d : ℚ) (hpi : Bool) (it : OrderItem)
    (si : StoreItem) (hpv : it.pool_variant = none)
    (hsi : it.store_item = some si) (hninst : si.is_installable = false) :
    (price_line d hpi it).line_install_amount = 0 := by
  rcases it with ⟨pv, si2, q, up, ls, sel, lia, lsa⟩
  simp only at hpv hsi
  subst hpv
  subst hsi
  simp [price_line, OrderItem.recalc_line_totals,
    StoreItem.estimate_install_cost, hninst]

/-- C10 (implicit behaviour): the permit fee keys on `install_selected`
alone.  An order whose install-selected lines all reference
non-installable equipment still pays the full accessory permit charge,
while each such line's install amount is 0. -/
theorem C10_permit_on_flag_only (hav : ℚ → ℚ → ℚ → ℚ → ℚ)
    (db : List (ZipLocation ℚ)) (gs : GlobalSettings) (darg : Option ℚ)
    (o o' : Order) (sa : ServiceArea)
    (h : o.apply_pricing hav db gs darg = Except.ok o')
    (hsa : (resolve_service_area db o.zip_location o.zip_code).2 = some sa)
    (honly : ∀ it ∈ o.items, it.install_selected = true → it.pool_variant = none)
    (i : ℕ) (it : OrderItem) (hit : o.items[i]? = some it)
    (hsel : it.install_selected = true)
    (si : StoreItem) (hsi : it.store_item = some si)
    (hninst : si.is_installable = false) :
    o'.permit_total = sa.get_accessory_permit_charge gs
    ∧ (o'.items[i]?.map (fun x => x.line_install_amount)) = some 0 := by
  obtain ⟨d, rfl⟩ := apply_pricing_eq_ok h
  have hmem : it ∈ o.items := List.getElem?_mem hit
  have hpi : has_pool_install o.items = false := by
    simp only [has_pool_install, List.any_eq_false]
    intro x hx
    rcases hs : x.install_selected with _ | _
    · simp [hs]
    · simp [hs, honly x hx hs]
  have hai : has_accessory_install o.items = true := by
    simp only [has_accessory_install, List.any_eq_true]
    exact ⟨it, hmem, by simp [hsi, hsel]⟩
  constructor
  · rw [apply_pricing_core_permit, hsa]
    simp [hpi, hai]
  · rw [apply_pricing_core_items, List.getElem?_map, hit]
    have hz := price_line_install_zero d (has_pool_install o.items) it si
      (honly it hmem hsel) hsi hninst
    simp [hz]

/-- Witness for C10: the only install-selected line is non-installable
equipment on the waiver group; the accessory permit is still charged and
the line's install amount is 0. -/
theorem C10_witness :
    (ord10.apply_pricing_core [] gsW 40).permit_total
      = saW.get_accessory_permit_charge gsW
    ∧ ((ord10.apply_pricing_core [] gsW 40).items[0]?.map
        (fun x => x.line_install_amount)) = some 0 :=
  C10_permit_on_flag_only hv0 [] gsW (some 40) ord10 _ saW rfl rfl
    (by decide) 0 ⟨none, some siFreeW, 1, 0, 0, true, 0, 0⟩ rfl rfl
    siFreeW rfl rfl

/-- Counterexample to C8 as stated: the base location has a latitude but
no longitude — it "lacks coordinates" — yet the resolver raises a
`TypeError` inside `haversine_miles` (the source checks only latitudes)
instead of returning `None`. -/
theorem C8_counterexample :
    calculate_distance_core haversine_miles [baseR, custR] gsR
      (some custR) "" none = Except.error PyError.typeError
    ∧ Except.error PyError.typeError
        ≠ (Except.ok none : Except PyError (Option ℝ)) :=
  ⟨rfl, fun h => Except.noConfusion h⟩

/-- C8 (amended): the resolver returns `None` — never 0 — whenever
either resolved location lacks a *latitude*; with all four coordinates
present it returns the haversine great-circle distance (Earth radius
3958.8 miles, per `haversine_miles`).  With a latitude present but a
longitude missing it raises a `TypeError` instead of returning `None`. -/
theorem C8_distance_resolver (db : List (ZipLocation ℝ)) (gs : GlobalSettings)
    (zl : Option (ZipLocation ℝ)) (zc : String) (zo : Option String)
    (b c : ZipLocation ℝ)
    (hb : find_zip db gs.base_zip_code = some b)
    (hc : resolve_customer_loc db zl zc zo = some c) :
    ((b.latitude = none ∨ c.latitude = none) →
      calculate_distance_core haversine_miles db gs zl zc zo = Except.ok none)
    ∧ (∀ blat blon clat clon : ℝ,
        b.latitude = some blat → b.longitude = some blon →
        c.latitude = some clat → c.longitude = some clon →
        calculate_distance_core haversine_miles db gs zl zc zo
          = Except.ok (some (haversine_miles blat blon clat clon)))
    ∧ ((∃ blat, b.latitude = some blat) → c.latitude = none →
      calculate_distance_core haversine_miles db gs zl zc zo = Except.ok none) := by
  refine ⟨?_, ?_, ?_⟩
  · intro hlat
    simp only [calculate_distance_core, hb, hc]
    rcases hlat with h | h
    · rw [h]
    · rcases hbl : b.latitude with _ | blat
      · rfl
      · rw [h]
  · intro blat blon clat clon h1 h2 h3 h4
    simp only [calculate_distance_core, hb, hc, h1, h2, h3, h4]
  · intro _ h
    simp only [calculate_distance_core, hb, hc]
    rcases hbl : b.latitude with _ | blat
    · rfl
    · rw [h]

/-- Witness for the amended C8: full coordinates on both records give
the haversine distance. -/
theorem C8_witness :
    calculate_distance_core haversine_miles [baseR2, custR] gsR
      (some custR) "" none
      = Except.ok (some (haversine_miles 0 0 1 1)) :=
  (C8_distance_resolver [baseR2, custR] gsR (some custR) "" none baseR2 custR
    rfl rfl).2.1 0 0 1 1 rfl rfl rfl rfl

end UCPoolCo
